import Mathlib

/-!
# Evilginx_monitor: `notify.go`

A shallow embedding of `src/notify.go` and the properties of its token
extraction, token consolidation, report formatting, artifact writing and
notification dispatch.

Conventions of the embedding.

* A Go `map[string]V` is a list of key/value pairs, listed in the order in
  which the `range` loop of the run under consideration visits them; a key
  lookup returns the value of the first pair with that key (keys of a Go
  map are distinct, so this is the value stored under the key) and a `nil`
  map is the empty list.
* A Go slice is a list.  Every empty slice this file builds is the `nil`
  slice (`var xs []T` that was never appended to), so `[]` stands for `nil`.
* A run-time panic is the `error` side of `Except`; where state is threaded,
  the panic comes with the state at the moment it is raised.
* A Go `error` value is represented by the text of its `Error()` method;
  `Option String` is a possibly-`nil` error.
* Functions of the standard library and of other files of the package
  (`encoding/json`, `math/rand`, `os`, `path/filepath`, the senders,
  `loadConfig`) are not part of `notify.go`; what they return is supplied by
  the environment record `Env`.
* The calls of the channel senders and of the console printers are recorded,
  with their arguments, in a trace; a format string is recorded as it is
  passed, not expanded.
-/

namespace EvilginxMonitor

/-! ## Data model -/

/-- Dynamic value held by a Go `interface{}`: the `nil` interface and the
dynamic types `encoding/json` stores in one (`bool`, `float64`, `string`,
`[]interface{}`, `map[string]interface{}`).  A `float64` is carried as its
IEEE-754 bit pattern. -/
inductive Iface where
  | null : Iface
  | bool (b : Bool) : Iface
  | float64 (bits : Nat) : Iface
  | str (s : String) : Iface
  | arr (items : List Iface) : Iface
  | obj (fields : List (String × Iface)) : Iface

/-- Go type `map[string]interface{}`: one attribute-map. -/
abbrev AttrMap := List (String × Iface)

/-- Go type `map[string]map[string]interface{}`: entry-key to attribute-map. -/
abbrev TokenGroup := List (String × AttrMap)

/-- Go type `map[string]map[string]map[string]interface{}`, the parameter
type of `extractTokens`. -/
abbrev RawTokens := List (String × TokenGroup)

/-- The struct `Token` (lines 13-27). -/
structure Token where
  Name : String
  Value : String
  Domain : String
  HostOnly : Bool
  Path : String
  Secure : Bool
  HttpOnly : Bool
  SameSite : String
  Session : Bool
  FirstPartyDomain : String
  PartitionKey : Iface
  ExpirationDate : Int
  StoreID : Iface

/-- Run-time panics the embedded code can raise. -/
inductive Panic where
  /-- A failed forced type assertion `tokenData[key].(T)`. -/
  | interfaceConversion (key : String) : Panic
  /-- An index expression `s[idx]` with `idx` outside `0 .. len-1`. -/
  | indexOutOfRange (idx len : Nat) : Panic

/-- Map index expression `m[key]` on a `map[string]interface{}`: the stored
value, or the zero value (the `nil` interface) when the key is absent. -/
def index (m : AttrMap) (key : String) : Iface :=
  match m.lookup key with
  | some v => v
  | none => Iface.null

/-- Forced type assertion `m[key].(string)`. -/
def assertString (m : AttrMap) (key : String) : Except Panic String :=
  match index m key with
  | Iface.str s => Except.ok s
  | _ => Except.error (Panic.interfaceConversion key)

/-- Forced type assertion `m[key].(bool)`. -/
def assertBool (m : AttrMap) (key : String) : Except Panic Bool :=
  match index m key with
  | Iface.bool b => Except.ok b
  | _ => Except.error (Panic.interfaceConversion key)

/-! ## `extractTokens` (lines 29-52) -/

/-- The composite literal of lines 34-46; the field expressions are
evaluated in the order they are written.  `ExpirationDate` and `StoreID`
are not listed in the literal and keep their zero values. -/
def mkToken (domain : String) (tokenData : AttrMap) : Except Panic Token := do
  let name ← assertString tokenData "Name"
  let value ← assertString tokenData "Value"
  let path ← assertString tokenData "Path"
  let httpOnly ← assertBool tokenData "HttpOnly"
  pure
    { Name := name
      Value := value
      Domain := domain
      HostOnly := false
      Path := path
      Secure := false
      HttpOnly := httpOnly
      SameSite := "lax"
      Session := false
      FirstPartyDomain := ""
      PartitionKey := Iface.null
      ExpirationDate := 0
      StoreID := Iface.null }

/-- The inner loop `for _, tokenData := range tokenGroup` (lines 33-48),
appending to the slice `tokens`. -/
def extractGroup (domain : String) : TokenGroup → List Token → Except Panic (List Token)
  | [], tokens => Except.ok tokens
  | (_, tokenData) :: rest, tokens => do
    let token ← mkToken domain tokenData
    extractGroup domain rest (tokens ++ [token])

/-- The outer loop `for domain, tokenGroup := range input` (lines 32-49). -/
def extractLoop : RawTokens → List Token → Except Panic (List Token)
  | [], tokens => Except.ok tokens
  | (domain, tokenGroup) :: rest, tokens => do
    let tokens1 ← extractGroup domain tokenGroup tokens
    extractLoop rest tokens1

/-- The function `extractTokens`: `var tokens []Token`, the two loops,
`return tokens`. -/
def extractTokens (input : RawTokens) : Except Panic (List Token) :=
  extractLoop input []

/-! ## `processAllTokens` (lines 53-72) -/

/-- The function `json.Unmarshal([]byte(s), &rawTokens)` of the standard
library, with `rawTokens` a fresh
`map[string]map[string]map[string]interface{}`: the decoded map, or the
text of the error. -/
abbrev Unmarshal := String → Except String RawTokens

/-- The loop body and loop of lines 57-69 over the remaining sources, with
the accumulator `consolidatedTokens`.  The result is the pair the function
returns. -/
def processLoop (unmarshal : Unmarshal) :
    List String → List Token → Except Panic (List Token × Option String)
  | [], consolidatedTokens => Except.ok (consolidatedTokens, none)
  | tokenJSON :: rest, consolidatedTokens =>
    if tokenJSON = "" then
      processLoop unmarshal rest consolidatedTokens
    else
      match unmarshal tokenJSON with
      | Except.error err =>
        Except.ok ([], some ("error parsing token JSON: " ++ err))
      | Except.ok rawTokens => do
        let tokens ← extractTokens rawTokens
        processLoop unmarshal rest (consolidatedTokens ++ tokens)

/-- The function `processAllTokens`. -/
def processAllTokens (unmarshal : Unmarshal)
    (sessionTokens httpTokens bodyTokens customTokens : String) :
    Except Panic (List Token × Option String) :=
  processLoop unmarshal [sessionTokens, httpTokens, bodyTokens, customTokens] []

/-! ## `generateRandomString` (lines 78-87) -/

/-- The constant `charset` of line 80. -/
def charset : String :=
  "abcdefghijklmnopqrstuvwxyzABCDEFGHIJKLMNOPQRSTUVWXYZ0123456789"

/-- The random source: `intn k n` is what the `k`-th call `rand.Intn(n)` made
by `generateRandomString` returns (`k` counts from 0).  The reseeding of
line 79 only selects which such function the run sees. -/
abbrev RandSource := Nat → Nat → Nat

/-- Index expression `charset[idx]`.  The charset is ASCII, so its bytes are
its characters. -/
def charsetAt (idx : Nat) : Except Panic Char :=
  match charset.data.get? idx with
  | some c => Except.ok c
  | none => Except.error (Panic.indexOutOfRange idx charset.length)

/-- The loop `for i := range randomStr` of lines 83-85, from index `i` on,
with `todo` indices left; the result lists the bytes written at
`i, i+1, ...`. -/
def fillRandom (intn : RandSource) : Nat → Nat → Except Panic (List Char)
  | _, 0 => Except.ok []
  | i, todo + 1 => do
    let c ← charsetAt (intn i charset.length)
    let rest ← fillRandom intn (i + 1) todo
    pure (c :: rest)

/-- The function `generateRandomString`, with `length := 10`. -/
def generateRandomString (intn : RandSource) : Except Panic String := do
  let randomStr ← fillRandom intn 0 10
  pure (String.mk randomStr)

/-- Line 90: `txtFileName := generateRandomString() + ".txt"`. -/
def txtFileName (intn : RandSource) : Except Panic String := do
  let base ← generateRandomString intn
  pure (base ++ ".txt")

/-! ## Session, configuration, environment, world -/

/-- Modelled from the spec: the struct `Session`, declared outside
`notify.go`.  The fields are the ones `notify.go` reads; the two timestamps
are integers (printed with `%d`); the Go types of the four token collections
are not visible, so each is carried as the dynamic value that
`json.MarshalIndent` receives. -/
structure Session where
  Username : String
  Password : String
  LandingURL : String
  UserAgent : String
  RemoteAddr : String
  CreateTime : Int
  UpdateTime : Int
  Tokens : Iface
  HTTPTokens : Iface
  BodyTokens : Iface
  Custom : Iface

/-- Modelled from the spec: the configuration record returned by
`loadConfig`, declared outside `notify.go`, with the fields `Notify` reads. -/
structure Config where
  TelegramEnable : Bool
  TelegramChatID : String
  TelegramToken : String
  MailEnable : Bool
  MailHost : String
  MailPort : Int
  MailUser : String
  MailPassword : String
  ToMail : String
  DiscordEnable : Bool
  DiscordChatID : String
  DiscordToken : String

/-- One call that leaves `notify.go`, with its arguments: the three channel
senders and the console printers. -/
inductive Call where
  | telegram (chatID token message filePath : String) : Call
  | mail (host : String) (port : Int) (user password toMail message filePath : String) : Call
  | discord (chatID token message filePath : String) : Call
  | println (args : List String) : Call
  | printf (format : String) (args : List String) : Call

/-- Recognises the calls of channel clients. -/
def Call.isSender : Call → Bool
  | Call.telegram _ _ _ _ => true
  | Call.mail _ _ _ _ _ _ _ => true
  | Call.discord _ _ _ _ => true
  | _ => false

/-- Recognises the calls of the Telegram sender. -/
def Call.isTelegram : Call → Bool
  | Call.telegram _ _ _ _ => true
  | _ => false

/-- File-system state: the content of each path that names a file. -/
abbrev FS := String → Option String

/-- A successful `os.Create(path)`: the file exists and is empty. -/
def FS.create (fs : FS) (path : String) : FS :=
  fun q => if q = path then some "" else fs q

/-- A successful `WriteString(data)` on the file just created at `path`. -/
def FS.write (fs : FS) (path data : String) : FS :=
  fun q => if q = path then some data else fs q

/-- A successful `os.Remove(path)`. -/
def FS.remove (fs : FS) (path : String) : FS :=
  fun q => if q = path then none else fs q

/-- State threaded through `createTxtFile` and `Notify`: the file system
and the calls made so far, oldest first. -/
structure World where
  fs : FS
  trace : List Call

/-- Appends one call to the trace. -/
def World.call (w : World) (c : Call) : World :=
  { w with trace := w.trace ++ [c] }

/-- What the code's collaborators return during one run of `Notify`. -/
structure Env where
  /-- Result of `loadConfig()`. -/
  loadConfig : Except String Config
  /-- Results of the calls `rand.Intn(n)`. -/
  intn : RandSource
  /-- Result of `os.TempDir()`. -/
  tempDir : String
  /-- The function `filepath.Join` on two elements. -/
  join : String → String → String
  /-- Error of `os.Create`, if it fails. -/
  createErr : Option String
  /-- Results of `json.MarshalIndent(v, "", "  ")` on a token collection. -/
  marshalIndent : Iface → Except String String
  /-- Results of `json.Unmarshal` into the three-level map. -/
  unmarshal : Unmarshal
  /-- Results of `json.MarshalIndent(allTokens, "", "  ")`. -/
  marshalTokens : List Token → Except String String
  /-- Error of `txtFile.WriteString`, if it fails. -/
  writeErr : Option String
  /-- Error returned by `sendTelegramNotification`, if it fails. -/
  telegramErr : Option String
  /-- Error returned by `sendMailNotificationWithAttachment`, if it fails. -/
  mailErr : Option String
  /-- Error returned by `sendDiscordNotification`, if it fails. -/
  discordErr : Option String
  /-- Error of `os.Remove`, if it fails. -/
  removeErr : Option String

/-! ## `createTxtFile` (lines 88-135) -/

/-- Lines 118-134 of `createTxtFile`, after the four collections were
marshalled.  A panic is returned with the world it leaves behind.  The
error of `processAllTokens` is assigned to `err` on line 118 and `err` is
assigned again on line 120 before it is read.  A failed
`json.MarshalIndent` returns a `nil` byte slice, so `string(result)` is
then empty.  A failed `WriteString` leaves the file as `os.Create` made
it. -/
def writeTokens (env : Env) (txtFilePath : String)
    (tokensJSON httpTokensJSON bodyTokensJSON customJSON : String) (w : World) :
    Except (Panic × World) (World × String × Option String) :=
  match processAllTokens env.unmarshal tokensJSON httpTokensJSON bodyTokensJSON customJSON with
  | Except.error p => Except.error (p, w)
  | Except.ok (allTokens, _) =>
    let rw : String × World :=
      match env.marshalTokens allTokens with
      | Except.ok r => (r, w)
      | Except.error err =>
        ("", w.call (Call.println ["Error marshalling final tokens:", err]))
    let result := rw.1
    let w2 := rw.2.call (Call.println ["Combined Tokens: ", result])
    match env.writeErr with
    | some err =>
      Except.ok (w2, "", some ("failed to write data to text file: " ++ err))
    | none =>
      Except.ok ({ w2 with fs := w2.fs.write txtFilePath result }, txtFilePath, none)

/-- The function `createTxtFile`.  The deferred `txtFile.Close()` closes a
handle and leaves the modelled state alone. -/
def createTxtFile (env : Env) (session : Session) (w : World) :
    Except (Panic × World) (World × String × Option String) :=
  match txtFileName env.intn with
  | Except.error p => Except.error (p, w)
  | Except.ok name =>
  let txtFilePath := env.join env.tempDir name
  match env.createErr with
  | some err => Except.ok (w, "", some ("failed to create text file: " ++ err))
  | none =>
    let w1 : World := { w with fs := w.fs.create txtFilePath }
    match env.marshalIndent session.Tokens with
    | Except.error err => Except.ok (w1, "", some ("failed to marshal Tokens: " ++ err))
    | Except.ok tokensJSON =>
    match env.marshalIndent session.HTTPTokens with
    | Except.error err => Except.ok (w1, "", some ("failed to marshal HTTPTokens: " ++ err))
    | Except.ok httpTokensJSON =>
    match env.marshalIndent session.BodyTokens with
    | Except.error err => Except.ok (w1, "", some ("failed to marshal BodyTokens: " ++ err))
    | Except.ok bodyTokensJSON =>
    match env.marshalIndent session.Custom with
    | Except.error err => Except.ok (w1, "", some ("failed to marshal Custom: " ++ err))
    | Except.ok customJSON =>
      writeTokens env txtFilePath tokensJSON httpTokensJSON bodyTokensJSON customJSON w1

/-! ## `formatSessionMessage` (lines 137-159) -/

/-- The function `formatSessionMessage`: the format string of lines 139-149
with each `%s` replaced by the string argument and each `%d` by the decimal
text of the integer argument. -/
def formatSessionMessage (session : Session) : String :=
  "✨ Session Information ✨\n\n" ++
  "👤 Username:      ➖ " ++ session.Username ++ "\n" ++
  "🔑 Password:      ➖ " ++ session.Password ++ "\n" ++
  "🌐 Landing URL:   ➖ " ++ session.LandingURL ++ "\n \n" ++
  "🖥️ User Agent:    ➖ " ++ session.UserAgent ++ "\n" ++
  "🌍 Remote Address:➖ " ++ session.RemoteAddr ++ "\n" ++
  "🕒 Create Time:   ➖ " ++ toString session.CreateTime ++ "\n" ++
  "🕔 Update Time:   ➖ " ++ toString session.UpdateTime ++ "\n" ++
  "\n" ++
  "📦 Tokens are added in txt file and attached separately in message.\n"

/-! ## `Notify` (lines 161-213) -/

/-- Lines 182-193: the Telegram block.  `err` is the variable assigned by
`createTxtFile`; the result of the sender is discarded. -/
def sendTelegram (config : Config) (session : Session) (message txtFilePath : String)
    (err : Option String) (w : World) : World :=
  if session.Username ≠ "" ∧ session.Password ≠ "" then
    if config.TelegramEnable then
      let w1 := w.call
        (Call.telegram config.TelegramChatID config.TelegramToken message txtFilePath)
      match err with
      | some e => w1.call (Call.printf "Error sending Telegram notification: %v\n" [e])
      | none => w1
    else w
  else
    w.call (Call.println ["Skipping Telegram notification: Username or Password is empty."])

/-- Lines 195-200: the mail block. -/
def sendMail (env : Env) (config : Config) (message txtFilePath : String) (w : World) :
    World :=
  if config.MailEnable then
    let w1 := w.call
      (Call.mail config.MailHost config.MailPort config.MailUser config.MailPassword
        config.ToMail message txtFilePath)
    match env.mailErr with
    | some e => w1.call (Call.printf "Error sending Mail notification: %v\n" [e])
    | none => w1
  else w

/-- Lines 202-204: the Discord block; the result of the sender is
discarded. -/
def sendDiscord (config : Config) (message txtFilePath : String) (w : World) : World :=
  if config.DiscordEnable then
    w.call (Call.discord config.DiscordChatID config.DiscordToken message txtFilePath)
  else w

/-- Lines 206-212: `os.Remove(txtFilePath)` and the report of its outcome. -/
def removeTxtFile (env : Env) (txtFilePath : String) (w : World) : World :=
  match env.removeErr with
  | some e => w.call (Call.printf "Error deleting Txt file: %v\n" [e])
  | none =>
    { fs := w.fs.remove txtFilePath
      trace := w.trace ++ [Call.println ["Txt file deleted successfully."]] }

/-- Lines 177-212 of `Notify`: what runs once `createTxtFile` returned no
error. -/
def dispatch (env : Env) (config : Config) (session : Session)
    (message txtFilePath : String) (err : Option String) (w : World) : World :=
  let w1 := w.call (Call.printf "------------------------------------------------------\n" [])
  let w2 := w1.call (Call.printf "Latest Session:\n" [])
  let w3 := w2.call (Call.printf message [])
  let w4 := w3.call (Call.printf "------------------------------------------------------\n" [])
  let w5 := sendTelegram config session message txtFilePath err w4
  let w6 := sendMail env config message txtFilePath w5
  let w7 := sendDiscord config message txtFilePath w6
  removeTxtFile env txtFilePath w7

/-- The function `Notify`. -/
def Notify (env : Env) (session : Session) (w : World) : Except (Panic × World) World :=
  match env.loadConfig with
  | Except.error err => Except.ok (w.call (Call.println [err]))
  | Except.ok config =>
    let message := formatSessionMessage session
    match createTxtFile env session w with
    | Except.error pw => Except.error pw
    | Except.ok (w1, txtFilePath, err) =>
      match err with
      | some e => Except.ok (w1.call (Call.println ["Error creating zip file:", e]))
      | none => Except.ok (dispatch env config session message txtFilePath err w1)

/-- The world a run ends in: the one returned, or the one left behind by a
panic. -/
def finalWorld : Except (Panic × World) World → World
  | Except.ok w => w
  | Except.error pw => pw.2

/-- The sender calls of a trace, in order. -/
def senderCalls (trace : List Call) : List Call :=
  trace.filter Call.isSender

/-! ## Predicates used to state the properties -/

/-- The attribute-map stores a string under `key`. -/
def hasString (m : AttrMap) (key : String) : Bool :=
  match m.lookup key with
  | some (Iface.str _) => true
  | _ => false

/-- The attribute-map stores a boolean under `key`. -/
def hasBool (m : AttrMap) (key : String) : Bool :=
  match m.lookup key with
  | some (Iface.bool _) => true
  | _ => false

/-- The attribute-map has strings under "Name", "Value", "Path" and a
boolean under "HttpOnly". -/
def attrOk (m : AttrMap) : Bool :=
  hasString m "Name" && hasString m "Value" && hasString m "Path" && hasBool m "HttpOnly"

/-- Every attribute-map of the input mapping satisfies `attrOk`. -/
def wellFormed (input : RawTokens) : Bool :=
  input.all (fun dg => dg.2.all (fun e => attrOk e.2))

/-- The (domain, entry) pairs of one domain, in visiting order, each given
as the domain and the attribute-map of the entry. -/
def groupEntries (domain : String) : TokenGroup → List (String × AttrMap)
  | [] => []
  | (_, tokenData) :: rest => (domain, tokenData) :: groupEntries domain rest

/-- The (domain, entry) pairs of an input mapping, in visiting order. -/
def entries : RawTokens → List (String × AttrMap)
  | [] => []
  | (domain, tokenGroup) :: rest => groupEntries domain tokenGroup ++ entries rest

/-- The token `t` is the one the extractor is to produce for the pair `p`:
the domain is the outer key, four fields come from the attribute-map, the
others are the fixed defaults. -/
def TokenOf (p : String × AttrMap) (t : Token) : Prop :=
  t.Domain = p.1 ∧
  p.2.lookup "Name" = some (Iface.str t.Name) ∧
  p.2.lookup "Value" = some (Iface.str t.Value) ∧
  p.2.lookup "Path" = some (Iface.str t.Path) ∧
  p.2.lookup "HttpOnly" = some (Iface.bool t.HttpOnly) ∧
  t.HostOnly = false ∧ t.Secure = false ∧ t.SameSite = "lax" ∧ t.Session = false ∧
  t.FirstPartyDomain = "" ∧ t.PartitionKey = Iface.null ∧
  t.ExpirationDate = 0 ∧ t.StoreID = Iface.null

/-- The source string is empty, or it parses to a well-formed mapping. -/
def sourceOk (unmarshal : Unmarshal) (s : String) : Bool :=
  decide (s = "") ||
    match unmarshal s with
    | Except.ok m => wellFormed m
    | Except.error _ => false

/-- The tokens `ts` are what the source string `s` contributes: nothing when
`s` is empty, else `extractTokens` applied to the parse of `s`. -/
def Contributes (unmarshal : Unmarshal) (s : String) (ts : List Token) : Prop :=
  (s = "" ∧ ts = []) ∨
  (s ≠ "" ∧ ∃ m, unmarshal s = Except.ok m ∧ extractTokens m = Except.ok ts)

/-! ## Sample inputs -/

/-- A well-formed attribute-map that also carries keys the extractor does
not read. -/
def sampleAttrs : AttrMap :=
  [("Name", Iface.str "sid"), ("Value", Iface.str "abc123"),
   ("Domain", Iface.str ".example.com"), ("Path", Iface.str "/"),
   ("HttpOnly", Iface.bool true)]

/-- A single-domain, single-entry mapping. -/
def sampleRaw : RawTokens :=
  [("example.com", [("1", sampleAttrs)])]

/-- JSON text of `sampleRaw`. -/
def sampleJSON : String :=
  "\x7b\"example.com\":\x7b\"1\":\x7b\"Name\":\"sid\",\"Value\":\"abc123\"," ++
  "\"Domain\":\".example.com\",\"Path\":\"/\",\"HttpOnly\":true\x7d\x7d\x7d"

/-- Indented JSON text of the one-field object with the string "v" under
"k", as `json.MarshalIndent(v, "", "  ")` writes it. -/
def sampleFlatJSON : String :=
  "\x7b\n  \"k\": \"v\"\n\x7d"

/-- What `json.Unmarshal` returns on the texts used in the samples: the
literal `null` leaves the map `nil`; `sampleJSON` decodes to `sampleRaw`; in
`sampleFlatJSON` a string stands where a map is expected; "not json" is not
JSON.  Texts outside the samples are answered like the last one. -/
def sampleUnmarshal : Unmarshal := fun s =>
  if s = "null" then Except.ok []
  else if s = sampleJSON then Except.ok sampleRaw
  else if s = sampleFlatJSON then
    Except.error
      "json: cannot unmarshal string into Go value of type map[string]map[string]interface {}"
  else Except.error "invalid character 'o' in literal null (expecting 'u')"

/-- A random source within the contract of `rand.Intn`. -/
def sampleIntn : RandSource := fun k n => (7 * k + 3) % n

/-- The character at `idx` of the charset exists and is an ASCII letter or
digit. -/
def charsetAlnumAt (idx : Nat) : Bool :=
  match charset.data.get? idx with
  | some c => c.isAlphanum
  | none => false

/-- What `json.MarshalIndent(v, "", "  ")` returns on the collections used
in the samples: `null` for a `nil` map, `sampleFlatJSON` for the one-field
object.  Other values are outside the samples. -/
def sampleMarshalIndent : Iface → Except String String
  | Iface.null => Except.ok "null"
  | Iface.obj [("k", Iface.str "v")] => Except.ok sampleFlatJSON
  | _ => Except.error "json: unsupported value"

/-- What `json.MarshalIndent(allTokens, "", "  ")` returns on the `nil`
slice.  Other slices are outside the samples. -/
def sampleMarshalTokens : List Token → Except String String
  | [] => Except.ok "null"
  | _ => Except.error "json: unsupported value"

/-- A configuration with the three channels enabled. -/
def sampleConfig : Config :=
  { TelegramEnable := true, TelegramChatID := "42", TelegramToken := "t-token",
    MailEnable := true, MailHost := "smtp.example.com", MailPort := 587,
    MailUser := "monitor", MailPassword := "secret", ToMail := "ops@example.com",
    DiscordEnable := true, DiscordChatID := "77", DiscordToken := "d-token" }

/-- An environment in which every collaborator succeeds. -/
def sampleEnv : Env :=
  { loadConfig := Except.ok sampleConfig
    intn := sampleIntn
    tempDir := "/tmp"
    join := fun dir name => dir ++ "/" ++ name
    createErr := none
    marshalIndent := sampleMarshalIndent
    unmarshal := sampleUnmarshal
    marshalTokens := sampleMarshalTokens
    writeErr := none
    telegramErr := none
    mailErr := none
    discordErr := none
    removeErr := none }

/-- A session with credentials whose four collections are `nil` maps. -/
def sampleSession : Session :=
  { Username := "bob", Password := "hunter2", LandingURL := "http://x",
    UserAgent := "Mozilla/5.0", RemoteAddr := "203.0.113.7",
    CreateTime := 1700000000, UpdateTime := 1700000060,
    Tokens := Iface.null, HTTPTokens := Iface.null, BodyTokens := Iface.null,
    Custom := Iface.null }

/-- The world before a run: no file, no call made. -/
def emptyWorld : World :=
  { fs := fun _ => none, trace := [] }

/-- The world a run of `createTxtFile` ends in. -/
def createdWorld : Except (Panic × World) (World × String × Option String) → World
  | Except.ok r => r.1
  | Except.error pw => pw.2

/-- The trace of `w1` extends the trace of `w` by calls that are not sender
calls. -/
def OnlyPrints (w w1 : World) : Prop :=
  ∃ calls, w1.trace = w.trace ++ calls ∧ ∀ c ∈ calls, Call.isSender c = false

/-- The Telegram calls of a trace, in order. -/
def telegramCalls (trace : List Call) : List Call :=
  trace.filter Call.isTelegram

/-- Path of the artifact in `sampleEnv`. -/
def samplePath : String := "/tmp/dkryFMT07e.txt"

/-- The world `createTxtFile` leaves in `sampleEnv` on `sampleSession`,
started from `emptyWorld`: the artifact holds the text of the `nil` token
slice. -/
def sampleCreated : World :=
  { fs := (emptyWorld.fs.create samplePath).write samplePath "null"
    trace := [Call.println ["Combined Tokens: ", "null"]] }

/-- The environment `env` with the results of the three senders replaced. -/
def withSendResults (env : Env) (telegramErr mailErr discordErr : Option String) : Env :=
  { env with telegramErr := telegramErr, mailErr := mailErr, discordErr := discordErr }

/-- The fields of a dynamic value that is a map; no fields otherwise. -/
def Iface.fields : Iface → List (String × Iface)
  | Iface.obj fs => fs
  | _ => []

/-- The attribute-maps of a token collection read as a nested mapping
domain → entry-key → attribute-map. -/
def collectionAttrMaps (c : Iface) : List AttrMap :=
  (c.fields.map (fun d => d.2.fields.map (fun e => e.2.fields))).flatten

/-- The token name and the token value an attribute-map holds. -/
def attrStrings (m : AttrMap) : List String :=
  (match m.lookup "Name" with
    | some (Iface.str s) => [s]
    | _ => []) ++
  (match m.lookup "Value" with
    | some (Iface.str s) => [s]
    | _ => [])

/-- The token names and token values of a session, over its four
collections. -/
def sessionTokenStrings (s : Session) : List String :=
  ((collectionAttrMaps s.Tokens ++ collectionAttrMaps s.HTTPTokens ++
    collectionAttrMaps s.BodyTokens ++ collectionAttrMaps s.Custom).map attrStrings).flatten

/-- Each of the four token collections of the session holds an entry. -/
def nonEmptyCollections (s : Session) : Bool :=
  !(collectionAttrMaps s.Tokens).isEmpty && !(collectionAttrMaps s.HTTPTokens).isEmpty &&
  !(collectionAttrMaps s.BodyTokens).isEmpty && !(collectionAttrMaps s.Custom).isEmpty

/-- The string `needle` occurs in `text` as a substring. -/
def containsText (text needle : String) : Prop :=
  needle.data <:+: text.data

/-- A collection with one cookie that stores the account name. -/
def hintCollection : Iface :=
  Iface.obj [("example.com", Iface.obj [("1", Iface.obj
    [("Name", Iface.str "login_hint"), ("Value", Iface.str "bob@example.com"),
     ("Path", Iface.str "/"), ("HttpOnly", Iface.bool false)])])]

/-- A session whose username is also the value of a captured cookie. -/
def hintSession : Session :=
  { Username := "bob@example.com", Password := "hunter2", LandingURL := "http://x",
    UserAgent := "Mozilla/5.0", RemoteAddr := "203.0.113.7",
    CreateTime := 1700000000, UpdateTime := 1700000060,
    Tokens := hintCollection, HTTPTokens := hintCollection,
    BodyTokens := hintCollection, Custom := hintCollection }

/-- A session whose custom collection maps a key to a string, as
`sampleFlatJSON` writes it; the other collections are `nil` maps. -/
def flatCustomSession : Session :=
  { sampleSession with Custom := Iface.obj [("k", Iface.str "v")] }

/-- The environment `sampleEnv` in which the write to the artifact fails. -/
def diskFullEnv : Env :=
  { sampleEnv with writeErr := some "no space left on device" }

/-- The world `Notify` returns in `diskFullEnv` on `sampleSession`, started
from `emptyWorld`. -/
def diskFullFinal : World :=
  { fs := emptyWorld.fs.create samplePath
    trace :=
      [Call.println ["Combined Tokens: ", "null"],
       Call.println ["Error creating zip file:",
         "failed to write data to text file: no space left on device"]] }

/-! ## Lemmas on `extractTokens` -/

theorem assertString_of_hasString (m : AttrMap) (key : String)
    (h : hasString m key = true) :
    ∃ s, assertString m key = Except.ok s ∧ m.lookup key = some (Iface.str s) := by
  unfold hasString at h
  unfold assertString index
  cases hl : List.lookup key m with
  | none => simp [hl] at h
  | some v =>
    cases v <;> simp [hl] at h ⊢

theorem assertBool_of_hasBool (m : AttrMap) (key : String)
    (h : hasBool m key = true) :
    ∃ b, assertBool m key = Except.ok b ∧ m.lookup key = some (Iface.bool b) := by
  unfold hasBool at h
  unfold assertBool index
  cases hl : List.lookup key m with
  | none => simp [hl] at h
  | some v =>
    cases v <;> simp [hl] at h ⊢

theorem assertString_error_of_not (m : AttrMap) (key : String)
    (h : hasString m key = false) :
    assertString m key = Except.error (Panic.interfaceConversion key) := by
  unfold hasString at h
  unfold assertString index
  cases hl : List.lookup key m with
  | none => rfl
  | some v =>
    cases v <;> simp [hl] at h ⊢

theorem assertBool_error_of_not (m : AttrMap) (key : String)
    (h : hasBool m key = false) :
    assertBool m key = Except.error (Panic.interfaceConversion key) := by
  unfold hasBool at h
  unfold assertBool index
  cases hl : List.lookup key m with
  | none => rfl
  | some v =>
    cases v <;> simp [hl] at h ⊢

theorem mkToken_eq (domain : String) (m : AttrMap) (n v p : String) (b : Bool)
    (hn : assertString m "Name" = Except.ok n) (hv : assertString m "Value" = Except.ok v)
    (hp : assertString m "Path" = Except.ok p) (hb : assertBool m "HttpOnly" = Except.ok b) :
    mkToken domain m = Except.ok
      { Name := n, Value := v, Domain := domain, HostOnly := false, Path := p,
        Secure := false, HttpOnly := b, SameSite := "lax", Session := false,
        FirstPartyDomain := "", PartitionKey := Iface.null, ExpirationDate := 0,
        StoreID := Iface.null } := by
  simp only [mkToken, hn, hv, hp, hb, bind, Except.bind, pure, Except.pure]

theorem mkToken_ok (domain : String) (m : AttrMap) (h : attrOk m = true) :
    ∃ t, mkToken domain m = Except.ok t ∧ TokenOf (domain, m) t := by
  simp only [attrOk, Bool.and_eq_true] at h
  obtain ⟨⟨⟨hn, hv⟩, hp⟩, hh⟩ := h
  obtain ⟨n, hn1, hn2⟩ := assertString_of_hasString m "Name" hn
  obtain ⟨v, hv1, hv2⟩ := assertString_of_hasString m "Value" hv
  obtain ⟨p, hp1, hp2⟩ := assertString_of_hasString m "Path" hp
  obtain ⟨b, hb1, hb2⟩ := assertBool_of_hasBool m "HttpOnly" hh
  refine ⟨_, mkToken_eq domain m n v p b hn1 hv1 hp1 hb1, ?_⟩
  simp [TokenOf, hn2, hv2, hp2, hb2]

theorem mkToken_error (domain : String) (m : AttrMap) (h : attrOk m = false) :
    ∃ p, mkToken domain m = Except.error p := by
  by_cases hn : hasString m "Name" = true
  · obtain ⟨n, hn1, _⟩ := assertString_of_hasString m "Name" hn
    by_cases hv : hasString m "Value" = true
    · obtain ⟨v, hv1, _⟩ := assertString_of_hasString m "Value" hv
      by_cases hp : hasString m "Path" = true
      · obtain ⟨p, hp1, _⟩ := assertString_of_hasString m "Path" hp
        have hh : hasBool m "HttpOnly" = false := by
          simp only [attrOk, hn, hv, hp, Bool.true_and] at h
          exact h
        refine ⟨Panic.interfaceConversion "HttpOnly", ?_⟩
        simp only [mkToken, hn1, hv1, hp1, assertBool_error_of_not m _ hh, bind, Except.bind]
      · refine ⟨Panic.interfaceConversion "Path", ?_⟩
        simp only [mkToken, hn1, hv1,
          assertString_error_of_not m _ (Bool.eq_false_iff.mpr hp), bind, Except.bind]
    · refine ⟨Panic.interfaceConversion "Value", ?_⟩
      simp only [mkToken, hn1,
        assertString_error_of_not m _ (Bool.eq_false_iff.mpr hv), bind, Except.bind]
  · refine ⟨Panic.interfaceConversion "Name", ?_⟩
    simp only [mkToken, assertString_error_of_not m _ (Bool.eq_false_iff.mpr hn), bind,
      Except.bind]

/-- The inner loop on a group of well-formed attribute-maps appends one
token per entry, in order. -/
theorem extractGroup_ok (domain : String) (g : TokenGroup)
    (h : g.all (fun e => attrOk e.2) = true) (acc : List Token) :
    ∃ ts, extractGroup domain g acc = Except.ok (acc ++ ts) ∧
      List.Forall₂ TokenOf (groupEntries domain g) ts := by
  induction g generalizing acc with
  | nil => exact ⟨[], by simp [extractGroup], by simp [groupEntries]⟩
  | cons e rest ih =>
    obtain ⟨k, m⟩ := e
    simp only [List.all_cons, Bool.and_eq_true] at h
    obtain ⟨t, ht, hto⟩ := mkToken_ok domain m h.1
    obtain ⟨ts, hts, hf⟩ := ih h.2 (acc ++ [t])
    refine ⟨t :: ts, ?_, ?_⟩
    · simp only [extractGroup, ht, bind, Except.bind, hts]
      simp
    · simp only [groupEntries]
      exact List.Forall₂.cons hto hf

/-- The inner loop fails on a group that holds an ill-formed attribute-map. -/
theorem extractGroup_error (domain : String) (g : TokenGroup)
    (h : g.all (fun e => attrOk e.2) = false) (acc : List Token) :
    ∃ p, extractGroup domain g acc = Except.error p := by
  induction g generalizing acc with
  | nil => simp at h
  | cons e rest ih =>
    obtain ⟨k, m⟩ := e
    by_cases hm : attrOk m = true
    · obtain ⟨t, ht, _⟩ := mkToken_ok domain m hm
      have hr : rest.all (fun e => attrOk e.2) = false := by
        simpa [List.all_cons, hm] using h
      obtain ⟨p, hp⟩ := ih hr (acc ++ [t])
      exact ⟨p, by simp only [extractGroup, ht, bind, Except.bind, hp]⟩
    · obtain ⟨p, hp⟩ := mkToken_error domain m (Bool.eq_false_iff.mpr hm)
      exact ⟨p, by simp only [extractGroup, hp, bind, Except.bind]⟩

/-- The outer loop on a well-formed mapping appends one token per
(domain, entry) pair, in order. -/
theorem extractLoop_ok (input : RawTokens) (h : wellFormed input = true)
    (acc : List Token) :
    ∃ ts, extractLoop input acc = Except.ok (acc ++ ts) ∧
      List.Forall₂ TokenOf (entries input) ts := by
  induction input generalizing acc with
  | nil => exact ⟨[], by simp [extractLoop], by simp [entries]⟩
  | cons dg rest ih =>
    obtain ⟨d, g⟩ := dg
    simp only [wellFormed, List.all_cons, Bool.and_eq_true] at h
    obtain ⟨ts1, h1, hf1⟩ := extractGroup_ok d g h.1 acc
    obtain ⟨ts2, h2, hf2⟩ := ih h.2 (acc ++ ts1)
    refine ⟨ts1 ++ ts2, ?_, ?_⟩
    · simp only [extractLoop, h1, bind, Except.bind, h2]
      simp
    · simp only [entries]
      exact List.rel_append hf1 hf2

/-- The outer loop fails on a mapping that is not well-formed. -/
theorem extractLoop_error (input : RawTokens) (h : wellFormed input = false)
    (acc : List Token) :
    ∃ p, extractLoop input acc = Except.error p := by
  induction input generalizing acc with
  | nil => simp [wellFormed] at h
  | cons dg rest ih =>
    obtain ⟨d, g⟩ := dg
    by_cases hg : g.all (fun e => attrOk e.2) = true
    · obtain ⟨ts1, h1, _⟩ := extractGroup_ok d g hg acc
      have hr : wellFormed rest = false := by
        simpa [wellFormed, List.all_cons, hg] using h
      obtain ⟨p, hp⟩ := ih hr (acc ++ ts1)
      exact ⟨p, by simp only [extractLoop, h1, bind, Except.bind, hp]⟩
    · obtain ⟨p, hp⟩ := extractGroup_error d g (Bool.eq_false_iff.mpr hg) acc
      exact ⟨p, by simp only [extractLoop, hp, bind, Except.bind]⟩

/-- On a well-formed mapping `extractTokens` returns a token sequence. -/
theorem extractTokens_ok (input : RawTokens) (h : wellFormed input = true) :
    ∃ ts, extractTokens input = Except.ok ts ∧ List.Forall₂ TokenOf (entries input) ts := by
  obtain ⟨ts, h1, h2⟩ := extractLoop_ok input h []
  exact ⟨ts, by simpa [extractTokens] using h1, h2⟩

/-! ## Properties of `extractTokens` -/

/-- C1: on an input mapping in which every attribute-map has strings under
"Name", "Value", "Path" and a boolean under "HttpOnly", `extractTokens`
returns exactly one token per (domain, entry) pair, in visiting order; each
token has the outer key as domain, the entry's "Name", "Value", "Path",
"HttpOnly" as name, value, path, httpOnly, and the fixed defaults
hostOnly=false, secure=false, sameSite="lax", session=false,
firstPartyDomain="", partitionKey=nil, expirationDate=0, storeId=nil,
whatever other keys the attribute-map carries. -/
theorem extractTokens_one_token_per_entry (input : RawTokens)
    (h : wellFormed input = true) :
    ∃ tokens, extractTokens input = Except.ok tokens ∧
      tokens.length = (entries input).length ∧
      List.Forall₂ TokenOf (entries input) tokens := by
  obtain ⟨ts, h1, h2⟩ := extractTokens_ok input h
  exact ⟨ts, h1, h2.length_eq.symm, h2⟩

/-- Witness of C1 on the single-domain, single-entry sample. -/
theorem extractTokens_one_token_per_entry_witness :
    wellFormed sampleRaw = true ∧
    extractTokens sampleRaw = Except.ok
      [{ Name := "sid", Value := "abc123", Domain := "example.com", HostOnly := false,
         Path := "/", Secure := false, HttpOnly := true, SameSite := "lax",
         Session := false, FirstPartyDomain := "", PartitionKey := Iface.null,
         ExpirationDate := 0, StoreID := Iface.null }] ∧
    ∃ tokens, extractTokens sampleRaw = Except.ok tokens ∧
      tokens.length = (entries sampleRaw).length ∧
      List.Forall₂ TokenOf (entries sampleRaw) tokens :=
  ⟨by decide, rfl, extractTokens_one_token_per_entry sampleRaw (by decide)⟩

/-- C8: with a failed forced type assertion as an error result,
`extractTokens` fails if and only if some entry's attribute-map has "Name",
"Value" or "Path" missing or not a string, or "HttpOnly" missing or not a
boolean; a failing call returns no token sequence. -/
theorem extractTokens_fails_iff (input : RawTokens) :
    ((∃ p, extractTokens input = Except.error p) ↔
      ∃ dg ∈ input, ∃ e ∈ dg.2,
        hasString e.2 "Name" = false ∨ hasString e.2 "Value" = false ∨
        hasString e.2 "Path" = false ∨ hasBool e.2 "HttpOnly" = false) ∧
    ∀ p, extractTokens input = Except.error p →
      ∀ tokens, extractTokens input ≠ Except.ok tokens := by
  have key : wellFormed input = false ↔
      ∃ dg ∈ input, ∃ e ∈ dg.2,
        hasString e.2 "Name" = false ∨ hasString e.2 "Value" = false ∨
        hasString e.2 "Path" = false ∨ hasBool e.2 "HttpOnly" = false := by
    simp only [wellFormed, List.all_eq_false, List.all_eq_true, attrOk, Bool.and_eq_true,
      not_forall, not_and_or, Bool.not_eq_true, exists_prop, or_assoc]
  constructor
  · constructor
    · rintro ⟨p, hp⟩
      by_cases hw : wellFormed input = true
      · obtain ⟨ts, hts, _⟩ := extractTokens_ok input hw
        rw [hts] at hp
        cases hp
      · exact key.mp (Bool.eq_false_iff.mpr hw)
    · intro hbad
      exact extractLoop_error input (key.mpr hbad) []
  · intro p hp tokens hts
    rw [hts] at hp
    cases hp

/-! ## Lemmas on `processAllTokens` -/

/-- A source that is empty or well-formed contributes tokens and the loop
goes on with them appended. -/
theorem processLoop_step (unmarshal : Unmarshal) (s : String) (rest : List String)
    (acc : List Token) (h : sourceOk unmarshal s = true) :
    ∃ ts, Contributes unmarshal s ts ∧
      processLoop unmarshal (s :: rest) acc = processLoop unmarshal rest (acc ++ ts) := by
  by_cases hs : s = ""
  · exact ⟨[], Or.inl ⟨hs, rfl⟩, by simp [processLoop, hs]⟩
  · simp only [sourceOk, hs, decide_False, Bool.false_or] at h
    cases hu : unmarshal s with
    | error e => simp [hu] at h
    | ok m =>
      simp only [hu] at h
      obtain ⟨ts, hts, _⟩ := extractTokens_ok m h
      refine ⟨ts, Or.inr ⟨hs, m, hu, hts⟩, ?_⟩
      simp only [processLoop, hs, if_false, hu, hts, bind, Except.bind]

/-- A parse failure after sources that are empty or well-formed ends the
loop with the error and no tokens. -/
theorem processLoop_parse_error (unmarshal : Unmarshal) (pre post : List String)
    (bad err : String) (hne : bad ≠ "") (hbad : unmarshal bad = Except.error err)
    (hpre : ∀ s ∈ pre, sourceOk unmarshal s = true) (acc : List Token) :
    processLoop unmarshal (pre ++ bad :: post) acc =
      Except.ok ([], some ("error parsing token JSON: " ++ err)) := by
  induction pre generalizing acc with
  | nil => simp only [List.nil_append, processLoop, hne, if_false, hbad]
  | cons s rest ih =>
    obtain ⟨ts, _, hstep⟩ :=
      processLoop_step unmarshal s (rest ++ bad :: post) acc (hpre s (List.mem_cons_self s rest))
    rw [List.cons_append, hstep]
    exact ih (fun x hx => hpre x (List.mem_cons_of_mem s hx)) (acc ++ ts)

/-! ## Properties of `processAllTokens` -/

/-- C2: for every four source strings, if some non-empty source string fails
to parse as a three-level mapping and every earlier source is empty or
well-formed, `processAllTokens` returns the error
"error parsing token JSON: " followed by the parser's message, together with
the nil token sequence: nothing collected from earlier sources is
returned. -/
theorem processAllTokens_parse_error (unmarshal : Unmarshal)
    (sessionTokens httpTokens bodyTokens customTokens : String)
    (pre post : List String) (bad err : String)
    (hsplit : [sessionTokens, httpTokens, bodyTokens, customTokens] = pre ++ bad :: post)
    (hne : bad ≠ "") (hbad : unmarshal bad = Except.error err)
    (hpre : ∀ s ∈ pre, sourceOk unmarshal s = true) :
    processAllTokens unmarshal sessionTokens httpTokens bodyTokens customTokens =
      Except.ok ([], some ("error parsing token JSON: " ++ err)) := by
  unfold processAllTokens
  rw [hsplit]
  exact processLoop_parse_error unmarshal pre post bad err hne hbad hpre []

/-- Witness of C2: the session source yields a token, the body source is
not JSON. -/
theorem processAllTokens_parse_error_witness :
    processAllTokens sampleUnmarshal sampleJSON "" "not json" "" =
      Except.ok ([], some ("error parsing token JSON: " ++
        "invalid character 'o' in literal null (expecting 'u')")) ∧
    (∃ t, extractTokens sampleRaw = Except.ok [t]) :=
  ⟨processAllTokens_parse_error sampleUnmarshal sampleJSON "" "not json" ""
      [sampleJSON, ""] [""] "not json" "invalid character 'o' in literal null (expecting 'u')"
      rfl (by decide) rfl (by decide),
    ⟨_, rfl⟩⟩

/-- C3: for four source strings each of which is empty or parses to a
well-formed mapping, `processAllTokens` returns no error and the
concatenation, in the order session, http, body, custom, of what each
source contributes (`extractTokens` of its parse; nothing for an empty
string); with all four strings empty the sequence is empty and there is no
error. -/
theorem processAllTokens_concat (unmarshal : Unmarshal)
    (sessionTokens httpTokens bodyTokens customTokens : String)
    (h1 : sourceOk unmarshal sessionTokens = true)
    (h2 : sourceOk unmarshal httpTokens = true)
    (h3 : sourceOk unmarshal bodyTokens = true)
    (h4 : sourceOk unmarshal customTokens = true) :
    (∃ t1 t2 t3 t4,
      Contributes unmarshal sessionTokens t1 ∧ Contributes unmarshal httpTokens t2 ∧
      Contributes unmarshal bodyTokens t3 ∧ Contributes unmarshal customTokens t4 ∧
      processAllTokens unmarshal sessionTokens httpTokens bodyTokens customTokens =
        Except.ok (t1 ++ t2 ++ t3 ++ t4, none)) ∧
    processAllTokens unmarshal "" "" "" "" = Except.ok ([], none) := by
  constructor
  · obtain ⟨t1, c1, e1⟩ :=
      processLoop_step unmarshal sessionTokens [httpTokens, bodyTokens, customTokens] [] h1
    obtain ⟨t2, c2, e2⟩ :=
      processLoop_step unmarshal httpTokens [bodyTokens, customTokens] ([] ++ t1) h2
    obtain ⟨t3, c3, e3⟩ :=
      processLoop_step unmarshal bodyTokens [customTokens] ([] ++ t1 ++ t2) h3
    obtain ⟨t4, c4, e4⟩ :=
      processLoop_step unmarshal customTokens [] ([] ++ t1 ++ t2 ++ t3) h4
    refine ⟨t1, t2, t3, t4, c1, c2, c3, c4, ?_⟩
    unfold processAllTokens
    rw [e1, e2, e3, e4]
    simp [processLoop]
  · simp [processAllTokens, processLoop]

/-- Witness of C3: a session source with one token, an absent http source,
a body source that is the literal `null`, an absent custom source. -/
theorem processAllTokens_concat_witness :
    (∃ t1 t2 t3 t4,
      Contributes sampleUnmarshal sampleJSON t1 ∧ Contributes sampleUnmarshal "" t2 ∧
      Contributes sampleUnmarshal "null" t3 ∧ Contributes sampleUnmarshal "" t4 ∧
      processAllTokens sampleUnmarshal sampleJSON "" "null" "" =
        Except.ok (t1 ++ t2 ++ t3 ++ t4, none)) ∧
    processAllTokens sampleUnmarshal "" "" "" "" = Except.ok ([], none) :=
  processAllTokens_concat sampleUnmarshal sampleJSON "" "null" ""
    (by decide) (by decide) (by decide) (by decide)

/-! ## `generateRandomString` -/

theorem charset_length : charset.length = 62 := by decide

theorem charsetAlnumAt_all : ∀ idx, idx < 62 → charsetAlnumAt idx = true := by decide

theorem charsetAt_ok (idx : Nat) (h : idx < charset.length) :
    ∃ c, charsetAt idx = Except.ok c ∧ c.isAlphanum = true := by
  have h1 := charsetAlnumAt_all idx (charset_length ▸ h)
  unfold charsetAlnumAt at h1
  unfold charsetAt
  cases hc : charset.data.get? idx with
  | none =>
    rw [hc] at h1
    cases h1
  | some c =>
    rw [hc] at h1
    exact ⟨c, rfl, h1⟩

/-- The loop writes `todo` characters, each taken from the charset. -/
theorem fillRandom_ok (intn : RandSource)
    (h : ∀ k n, 0 < n → intn k n < n) (todo i : Nat) :
    ∃ cs, fillRandom intn i todo = Except.ok cs ∧ cs.length = todo ∧
      ∀ c ∈ cs, c.isAlphanum = true := by
  induction todo generalizing i with
  | zero => exact ⟨[], rfl, rfl, by simp⟩
  | succ n ih =>
    have hpos : 0 < charset.length := by rw [charset_length]; decide
    obtain ⟨c, hc, hal⟩ := charsetAt_ok (intn i charset.length) (h i _ hpos)
    obtain ⟨cs, hcs, hlen, hall⟩ := ih (i + 1)
    refine ⟨c :: cs, ?_, by simp [hlen], ?_⟩
    · simp only [fillRandom, hc, hcs, bind, Except.bind, pure, Except.pure]
    · intro x hx
      rcases List.mem_cons.mp hx with rfl | hx
      · exact hal
      · exact hall x hx

/-- C10: whatever values in `[0, n)` the calls `rand.Intn(n)` return,
`generateRandomString` indexes the 62-character charset in bounds (it
returns, with no index panic) and its result has exactly 10 characters, each
an ASCII letter or digit; the artifact base name is that string followed by
".txt". -/
theorem generateRandomString_alphanumeric (intn : RandSource)
    (h : ∀ k n, 0 < n → intn k n < n) :
    charset.length = 62 ∧
    ∃ s, generateRandomString intn = Except.ok s ∧ s.length = 10 ∧
      (∀ c ∈ s.data, c.isAlphanum = true) ∧
      txtFileName intn = Except.ok (s ++ ".txt") := by
  refine ⟨charset_length, ?_⟩
  obtain ⟨cs, hcs, hlen, hall⟩ := fillRandom_ok intn h 10 0
  have hg : generateRandomString intn = Except.ok (String.mk cs) := by
    simp only [generateRandomString, hcs, bind, Except.bind, pure, Except.pure]
  refine ⟨String.mk cs, hg, ?_, hall, ?_⟩
  · simpa [String.length] using hlen
  · simp only [txtFileName, hg, bind, Except.bind, pure, Except.pure]

/-- Witness of C10 on `sampleIntn`. -/
theorem generateRandomString_alphanumeric_witness :
    (∀ k n, 0 < n → sampleIntn k n < n) ∧
    generateRandomString sampleIntn = Except.ok "dkryFMT07e" ∧
    charset.length = 62 ∧
    ∃ s, generateRandomString sampleIntn = Except.ok s ∧ s.length = 10 ∧
      (∀ c ∈ s.data, c.isAlphanum = true) ∧
      txtFileName sampleIntn = Except.ok (s ++ ".txt") :=
  ⟨fun _ _ hn => Nat.mod_lt _ hn, rfl,
    generateRandomString_alphanumeric sampleIntn (fun _ _ hn => Nat.mod_lt _ hn)⟩

/-! ## Lemmas on `createTxtFile` and `Notify` -/

theorem onlyPrints_refl (w : World) : OnlyPrints w w :=
  ⟨[], by simp, by simp⟩

theorem onlyPrints_fs (w : World) (fs : FS) : OnlyPrints w { w with fs := fs } :=
  ⟨[], by simp, by simp⟩

theorem isTelegram_isSender (c : Call) (h : Call.isSender c = false) :
    Call.isTelegram c = false := by
  cases c <;> simp_all [Call.isSender, Call.isTelegram]

theorem senderCalls_of_onlyPrints (w w1 : World) (h : OnlyPrints w w1) :
    senderCalls w1.trace = senderCalls w.trace := by
  obtain ⟨calls, ht, hc⟩ := h
  have : calls.filter Call.isSender = [] := by
    rw [List.filter_eq_nil_iff]
    intro c hmem
    simp [hc c hmem]
  simp [senderCalls, ht, List.filter_append, this]

theorem telegramCalls_of_onlyPrints (w w1 : World) (h : OnlyPrints w w1) :
    telegramCalls w1.trace = telegramCalls w.trace := by
  obtain ⟨calls, ht, hc⟩ := h
  have : calls.filter Call.isTelegram = [] := by
    rw [List.filter_eq_nil_iff]
    intro c hmem
    simp [isTelegram_isSender c (hc c hmem)]
  simp [telegramCalls, ht, List.filter_append, this]

/-- Lines 118-134 call no sender. -/
theorem writeTokens_onlyPrints (env : Env) (path a b c d : String) (w : World) :
    OnlyPrints w (createdWorld (writeTokens env path a b c d w)) := by
  unfold writeTokens
  cases processAllTokens env.unmarshal a b c d with
  | error p => exact onlyPrints_refl w
  | ok r =>
    obtain ⟨allTokens, e⟩ := r
    cases hm : env.marshalTokens allTokens <;> cases hw : env.writeErr <;>
      simp only [hm, hw, createdWorld, OnlyPrints, World.call, List.append_assoc] <;>
      refine ⟨_, rfl, ?_⟩ <;> simp [Call.isSender]

/-- The function `createTxtFile` calls no sender. -/
theorem createTxtFile_onlyPrints (env : Env) (session : Session) (w : World) :
    OnlyPrints w (createdWorld (createTxtFile env session w)) := by
  unfold createTxtFile
  cases txtFileName env.intn with
  | error p => exact onlyPrints_refl w
  | ok name =>
    cases env.createErr with
    | some e => exact onlyPrints_refl w
    | none =>
      cases env.marshalIndent session.Tokens with
      | error e => exact onlyPrints_fs w _
      | ok a =>
        cases env.marshalIndent session.HTTPTokens with
        | error e => exact onlyPrints_fs w _
        | ok b =>
          cases env.marshalIndent session.BodyTokens with
          | error e => exact onlyPrints_fs w _
          | ok c =>
            cases env.marshalIndent session.Custom with
            | error e => exact onlyPrints_fs w _
            | ok d =>
              obtain ⟨calls, ht, hc⟩ := writeTokens_onlyPrints env
                (env.join env.tempDir name) a b c d
                { w with fs := w.fs.create (env.join env.tempDir name) }
              exact ⟨calls, ht, hc⟩

theorem senderCalls_append (t1 t2 : List Call) :
    senderCalls (t1 ++ t2) = senderCalls t1 ++ senderCalls t2 := by
  simp [senderCalls, List.filter_append]

/-- The Telegram block adds the Telegram call exactly when both credentials
are non-empty and the channel is enabled. -/
theorem sendTelegram_senderCalls (config : Config) (session : Session)
    (message path : String) (err : Option String) (w : World) :
    senderCalls (sendTelegram config session message path err w).trace =
      senderCalls w.trace ++
        (if session.Username ≠ "" ∧ session.Password ≠ "" ∧ config.TelegramEnable = true then
          [Call.telegram config.TelegramChatID config.TelegramToken message path]
        else []) := by
  unfold sendTelegram
  by_cases hc : session.Username ≠ "" ∧ session.Password ≠ ""
  · cases ht : config.TelegramEnable <;> cases err <;>
      simp [hc, World.call, senderCalls, List.filter_append, Call.isSender]
  · rw [if_neg hc]
    have : ¬ (session.Username ≠ "" ∧ session.Password ≠ "" ∧ config.TelegramEnable = true) :=
      fun h => hc ⟨h.1, h.2.1⟩
    rw [if_neg this]
    simp [World.call, senderCalls, List.filter_append, Call.isSender]

/-- The mail block adds the mail call exactly when the channel is enabled,
whatever the sender returns. -/
theorem sendMail_senderCalls (env : Env) (config : Config) (message path : String)
    (w : World) :
    senderCalls (sendMail env config message path w).trace =
      senderCalls w.trace ++
        (if config.MailEnable = true then
          [Call.mail config.MailHost config.MailPort config.MailUser config.MailPassword
            config.ToMail message path]
        else []) := by
  unfold sendMail
  cases hm : config.MailEnable <;> cases env.mailErr <;>
    simp [World.call, senderCalls, List.filter_append, Call.isSender]

/-- The Discord block adds the Discord call exactly when the channel is
enabled. -/
theorem sendDiscord_senderCalls (config : Config) (message path : String) (w : World) :
    senderCalls (sendDiscord config message path w).trace =
      senderCalls w.trace ++
        (if config.DiscordEnable = true then
          [Call.discord config.DiscordChatID config.DiscordToken message path]
        else []) := by
  unfold sendDiscord
  cases hd : config.DiscordEnable <;>
    simp [World.call, senderCalls, List.filter_append, Call.isSender]

theorem removeTxtFile_senderCalls (env : Env) (path : String) (w : World) :
    senderCalls (removeTxtFile env path w).trace = senderCalls w.trace := by
  unfold removeTxtFile
  cases env.removeErr <;>
    simp [World.call, senderCalls, List.filter_append, Call.isSender]

/-- The sender calls made by lines 177-212, in order. -/
theorem dispatch_senderCalls (env : Env) (config : Config) (session : Session)
    (message path : String) (err : Option String) (w : World) :
    senderCalls (dispatch env config session message path err w).trace =
      senderCalls w.trace ++
        (if session.Username ≠ "" ∧ session.Password ≠ "" ∧ config.TelegramEnable = true then
          [Call.telegram config.TelegramChatID config.TelegramToken message path]
        else []) ++
        (if config.MailEnable = true then
          [Call.mail config.MailHost config.MailPort config.MailUser config.MailPassword
            config.ToMail message path]
        else []) ++
        (if config.DiscordEnable = true then
          [Call.discord config.DiscordChatID config.DiscordToken message path]
        else []) := by
  unfold dispatch
  simp only [removeTxtFile_senderCalls, sendDiscord_senderCalls, sendMail_senderCalls,
    sendTelegram_senderCalls]
  simp [World.call, senderCalls, List.filter_append, Call.isSender]

/-- The function `Notify` once configuration load and artifact creation
succeeded. -/
theorem Notify_of_created (env : Env) (session : Session) (w w1 : World)
    (config : Config) (path : String)
    (hc : env.loadConfig = Except.ok config)
    (hf : createTxtFile env session w = Except.ok (w1, path, none)) :
    Notify env session w =
      Except.ok (dispatch env config session (formatSessionMessage session) path none w1) := by
  simp only [Notify, hc, hf]

/-- A run of `Notify` that does not reach line 177 calls no sender. -/
theorem Notify_onlyPrints_of_not_created (env : Env) (session : Session) (w : World)
    (h : ∀ config w1 path, env.loadConfig = Except.ok config →
      createTxtFile env session w ≠ Except.ok (w1, path, none)) :
    OnlyPrints w (finalWorld (Notify env session w)) := by
  unfold Notify
  cases hc : env.loadConfig with
  | error e => exact ⟨[Call.println [e]], rfl, by simp [Call.isSender]⟩
  | ok config =>
    have hcr := createTxtFile_onlyPrints env session w
    cases hf : createTxtFile env session w with
    | error pw =>
      rw [hf] at hcr
      exact hcr
    | ok r =>
      obtain ⟨w1, path, err⟩ := r
      rw [hf] at hcr
      cases err with
      | none => exact absurd hf (h config w1 path hc)
      | some e =>
        obtain ⟨calls, ht, hcalls⟩ := hcr
        refine ⟨calls ++ [Call.println ["Error creating zip file:", e]], ?_, ?_⟩
        · simp only [createdWorld] at ht
          simp [finalWorld, World.call, ht]
        · intro c hmem
          rcases List.mem_append.mp hmem with hm | hm
          · exact hcalls c hm
          · simp only [List.mem_singleton] at hm
            subst hm
            rfl

theorem telegramCalls_eq_filter (t : List Call) :
    telegramCalls t = (senderCalls t).filter Call.isTelegram := by
  unfold telegramCalls senderCalls
  rw [List.filter_filter]
  congr 1
  funext c
  cases c <;> rfl

theorem createTxtFile_sample (session : Session)
    (h1 : session.Tokens = Iface.null) (h2 : session.HTTPTokens = Iface.null)
    (h3 : session.BodyTokens = Iface.null) (h4 : session.Custom = Iface.null) :
    createTxtFile sampleEnv session emptyWorld = Except.ok (sampleCreated, samplePath, none) := by
  simp only [createTxtFile, h1, h2, h3, h4]
  rfl

/-! ## Properties of the dispatch in `Notify` -/

/-- C6: if the session's username is empty or its password is empty, a run
of `Notify` makes no call of the Telegram sender, whether or not the
channel is enabled (and also when the run stops early or panics); when both
are non-empty and configuration load and artifact creation succeeded,
`Notify` returns and has called the Telegram sender once, with the message
and the artifact path, if the enable flag is set and not at all if it is
not. -/
theorem notify_telegram_gate (env : Env) (session : Session) (w : World) :
    (session.Username = "" ∨ session.Password = "" →
      telegramCalls (finalWorld (Notify env session w)).trace = telegramCalls w.trace) ∧
    (session.Username ≠ "" → session.Password ≠ "" →
      ∀ config w1 path, env.loadConfig = Except.ok config →
        createTxtFile env session w = Except.ok (w1, path, none) →
        ∃ w2, Notify env session w = Except.ok w2 ∧
          telegramCalls w2.trace = telegramCalls w.trace ++
            (if config.TelegramEnable = true then
              [Call.telegram config.TelegramChatID config.TelegramToken
                (formatSessionMessage session) path]
            else [])) := by
  have created : ∀ config w1 path, env.loadConfig = Except.ok config →
      createTxtFile env session w = Except.ok (w1, path, none) →
      Notify env session w = Except.ok
          (dispatch env config session (formatSessionMessage session) path none w1) ∧
        senderCalls w1.trace = senderCalls w.trace := by
    intro config w1 path hc hf
    refine ⟨Notify_of_created env session w w1 config path hc hf, ?_⟩
    have := createTxtFile_onlyPrints env session w
    rw [hf] at this
    exact senderCalls_of_onlyPrints w w1 this
  constructor
  · intro hempty
    by_cases hcr : ∃ config w1 path, env.loadConfig = Except.ok config ∧
        createTxtFile env session w = Except.ok (w1, path, none)
    · obtain ⟨config, w1, path, hc, hf⟩ := hcr
      obtain ⟨hN, hs⟩ := created config w1 path hc hf
      have hcond : ¬ (session.Username ≠ "" ∧ session.Password ≠ "" ∧
          config.TelegramEnable = true) := by
        rintro ⟨hu, hp, _⟩
        rcases hempty with h | h
        · exact hu h
        · exact hp h
      rw [hN]
      simp only [finalWorld, telegramCalls_eq_filter, dispatch_senderCalls, hs, if_neg hcond]
      cases config.MailEnable <;> cases config.DiscordEnable <;>
        simp [List.filter_append, Call.isTelegram]
    · have hno : ∀ config w1 path, env.loadConfig = Except.ok config →
          createTxtFile env session w ≠ Except.ok (w1, path, none) :=
        fun config w1 path hc hf => hcr ⟨config, w1, path, hc, hf⟩
      exact telegramCalls_of_onlyPrints w _
        (Notify_onlyPrints_of_not_created env session w hno)
  · intro hu hp config w1 path hc hf
    obtain ⟨hN, hs⟩ := created config w1 path hc hf
    refine ⟨_, hN, ?_⟩
    simp only [telegramCalls_eq_filter, dispatch_senderCalls, hs]
    cases config.TelegramEnable <;> cases config.MailEnable <;> cases config.DiscordEnable <;>
      simp [hu, hp, List.filter_append, Call.isTelegram]

/-- Witness of C6: with the Telegram channel enabled, a session with an
empty password gets no Telegram call, a session with both credentials gets
one. -/
theorem notify_telegram_gate_witness :
    telegramCalls
      (finalWorld (Notify sampleEnv { sampleSession with Password := "" } emptyWorld)).trace
      = [] ∧
    ∃ w2, Notify sampleEnv sampleSession emptyWorld = Except.ok w2 ∧
      telegramCalls w2.trace =
        [Call.telegram "42" "t-token" (formatSessionMessage sampleSession) samplePath] :=
  ⟨(notify_telegram_gate sampleEnv { sampleSession with Password := "" } emptyWorld).1
      (Or.inr rfl),
    (notify_telegram_gate sampleEnv sampleSession emptyWorld).2 (by decide) (by decide)
      sampleConfig sampleCreated samplePath rfl
      (createTxtFile_sample sampleSession rfl rfl rfl rfl)⟩

/-- C9: when configuration load and artifact creation succeed, then for
every combination of results of the three senders `Notify` returns, and the
sender calls it made are, in this order: the Telegram call if both
credentials are non-empty and Telegram is enabled, the mail call if and only
if mail is enabled, the Discord call if and only if Discord is enabled; each
at most once.  A failed send does not stop a later channel, and with all
channels disabled no sender is called. -/
theorem notify_channels_in_order (env : Env) (session : Session) (w w1 : World)
    (config : Config) (path : String) (telegramErr mailErr discordErr : Option String)
    (hc : env.loadConfig = Except.ok config)
    (hf : createTxtFile env session w = Except.ok (w1, path, none)) :
    ∃ w2,
      Notify (withSendResults env telegramErr mailErr discordErr) session w = Except.ok w2 ∧
      senderCalls w2.trace = senderCalls w.trace ++
        (if session.Username ≠ "" ∧ session.Password ≠ "" ∧ config.TelegramEnable = true then
          [Call.telegram config.TelegramChatID config.TelegramToken
            (formatSessionMessage session) path]
        else []) ++
        (if config.MailEnable = true then
          [Call.mail config.MailHost config.MailPort config.MailUser config.MailPassword
            config.ToMail (formatSessionMessage session) path]
        else []) ++
        (if config.DiscordEnable = true then
          [Call.discord config.DiscordChatID config.DiscordToken
            (formatSessionMessage session) path]
        else []) := by
  have hf2 : createTxtFile (withSendResults env telegramErr mailErr discordErr) session w =
      Except.ok (w1, path, none) := hf
  have hs : senderCalls w1.trace = senderCalls w.trace := by
    have := createTxtFile_onlyPrints env session w
    rw [hf] at this
    exact senderCalls_of_onlyPrints w w1 this
  refine ⟨_, Notify_of_created _ session w w1 config path hc hf2, ?_⟩
  rw [dispatch_senderCalls, hs]

/-- Witness of C9: all three channels enabled and every send failing. -/
theorem notify_channels_in_order_witness :
    ∃ w2,
      Notify (withSendResults sampleEnv (some "timeout") (some "refused") (some "timeout"))
        sampleSession emptyWorld = Except.ok w2 ∧
      senderCalls w2.trace =
        [Call.telegram "42" "t-token" (formatSessionMessage sampleSession) samplePath,
         Call.mail "smtp.example.com" 587 "monitor" "secret" "ops@example.com"
           (formatSessionMessage sampleSession) samplePath,
         Call.discord "77" "d-token" (formatSessionMessage sampleSession) samplePath] :=
  notify_channels_in_order sampleEnv sampleSession emptyWorld sampleCreated sampleConfig
    samplePath (some "timeout") (some "refused") (some "timeout") rfl
    (createTxtFile_sample sampleSession rfl rfl rfl rfl)

/-- Once the artifact was created, `Notify` removes it when `os.Remove`
succeeds, whatever the senders return. -/
theorem notify_removes_created (env : Env) (session : Session) (w w1 : World)
    (config : Config) (path : String)
    (hc : env.loadConfig = Except.ok config)
    (hf : createTxtFile env session w = Except.ok (w1, path, none))
    (hr : env.removeErr = none) :
    ∃ w2, Notify env session w = Except.ok w2 ∧ w2.fs path = none := by
  refine ⟨_, Notify_of_created env session w w1 config path hc hf, ?_⟩
  simp [dispatch, removeTxtFile, hr, FS.remove]

/-! ## Consolidation failure and the artifact's lifetime -/

/-- C4 at a failing input: on `flatCustomSession` the consolidation returns
a parse error, `createTxtFile` still returns the artifact path with no
error, and `Notify` goes on to call all three senders. -/
theorem createTxtFile_drops_consolidation_error :
    processAllTokens sampleEnv.unmarshal "null" "null" "null" sampleFlatJSON =
      Except.ok ([], some ("error parsing token JSON: " ++
        "json: cannot unmarshal string into Go value of type " ++
        "map[string]map[string]interface {}")) ∧
    createTxtFile sampleEnv flatCustomSession emptyWorld =
      Except.ok (sampleCreated, samplePath, none) ∧
    ∃ w2, Notify sampleEnv flatCustomSession emptyWorld = Except.ok w2 ∧
      senderCalls w2.trace =
        [Call.telegram "42" "t-token" (formatSessionMessage flatCustomSession) samplePath,
         Call.mail "smtp.example.com" 587 "monitor" "secret" "ops@example.com"
           (formatSessionMessage flatCustomSession) samplePath,
         Call.discord "77" "d-token" (formatSessionMessage flatCustomSession) samplePath] := by
  have hf : createTxtFile sampleEnv flatCustomSession emptyWorld =
      Except.ok (sampleCreated, samplePath, none) := rfl
  refine ⟨rfl, hf, _, Notify_of_created sampleEnv flatCustomSession emptyWorld sampleCreated
    sampleConfig samplePath rfl hf, ?_⟩
  rw [dispatch_senderCalls]
  rfl

/-- C7 at a failing input: in `diskFullEnv` the artifact does not exist
before the run, `os.Create` creates it, the write fails, and `Notify`
returns without a sender call and with the artifact still in the file
system. -/
theorem notify_leaves_artifact_on_write_error :
    emptyWorld.fs samplePath = none ∧
    Notify diskFullEnv sampleSession emptyWorld = Except.ok diskFullFinal ∧
    diskFullFinal.fs samplePath = some "" ∧ senderCalls diskFullFinal.trace = [] :=
  ⟨rfl, rfl, rfl, rfl⟩

/-! ## The report text and the token collections -/

/-- The report text contains the username. -/
theorem formatSessionMessage_contains_username (s : Session) :
    containsText (formatSessionMessage s) s.Username := by
  unfold containsText formatSessionMessage
  simp only [String.data_append, List.append_assoc]
  exact ((List.prefix_append _ _).isInfix.trans (List.suffix_append _ _).isInfix).trans
    (List.suffix_append _ _).isInfix

/-- C5 fails on `hintSession`: its four collections are non-empty, the
cookie value "bob@example.com" is one of the session's token values, and
the report text contains it. -/
theorem formatSessionMessage_contains_token_value :
    nonEmptyCollections hintSession = true ∧
    "bob@example.com" ∈ sessionTokenStrings hintSession ∧
    containsText (formatSessionMessage hintSession) "bob@example.com" :=
  ⟨by decide, by decide, formatSessionMessage_contains_username hintSession⟩

/-- C5 as amended: the report text does not depend on the token collections
of the session; two sessions that agree on username, password, landing
URL, user agent, remote address, create time and update time get the same
text, whatever their token collections hold. -/
theorem formatSessionMessage_ignores_tokens (s1 s2 : Session)
    (hu : s1.Username = s2.Username) (hp : s1.Password = s2.Password)
    (hl : s1.LandingURL = s2.LandingURL) (ha : s1.UserAgent = s2.UserAgent)
    (hr : s1.RemoteAddr = s2.RemoteAddr) (hc : s1.CreateTime = s2.CreateTime)
    (ht : s1.UpdateTime = s2.UpdateTime) :
    formatSessionMessage s1 = formatSessionMessage s2 := by
  simp only [formatSessionMessage, hu, hp, hl, ha, hr, hc, ht]

/-- Witness of the amended C5: `hintSession` and the same session with its
four collections replaced by `nil` maps. -/
theorem formatSessionMessage_ignores_tokens_witness :
    formatSessionMessage hintSession =
      formatSessionMessage
        { hintSession with Tokens := Iface.null, HTTPTokens := Iface.null,
                           BodyTokens := Iface.null, Custom := Iface.null } :=
  formatSessionMessage_ignores_tokens hintSession _ rfl rfl rfl rfl rfl rfl rfl

end EvilginxMonitor
